import Mathlib

/-!
Verification of the wily `diff` / `report` command layer
(`src/wily/commands/diff.py`, `src/wily/commands/report.py`,
`src/wily/commands/__init__.py`).

Python values flowing through these commands are either numbers
(int/float, modelled as `Rat`) or strings.  Parts of the repository that
the commands import but that are not part of the analysed sources
(`wily.operators` color tables, `wily.state`, `wily.format_delta`,
`wily.commands.build.run_operator`) are modelled from the specification
and marked as such in their doc comments.
-/

/-- Metric aim ("measure" in the code): whether an increase of the metric is
good, bad, or neither.  Mirrors `MetricType` of `wily.operators`. -/
inductive MetricType where
  | aimHigh
  | aimLow
  | informational
deriving DecidableEq

/-- Declared value type of a metric: `meta["type"] in (int, float)` selects the
numeric branch in `report.py`, anything else the textual branch. -/
inductive MetricValType where
  | numericT
  | textualT
deriving DecidableEq

/-- A Python metric value: a number (int/float, modelled as `Rat`) or a
string. -/
inductive MVal where
  | num (x : Rat)
  | str (s : String)
deriving DecidableEq

/-- Modelled from the spec: the `GOOD_COLORS` table of `wily.operators`
(not under the analysed sources).  `GOOD_COLORS[measure]` is the ANSI code
used for an increase of the metric: the good style (green, 32) when the aim
is AimHigh, the bad style (red, 31) when the aim is AimLow, and the distinct
informational style (yellow, 33) otherwise — per §4.4 of the spec,
"Improvement uses the good style". -/
def GOOD_COLORS : MetricType → Nat
  | .aimHigh => 32
  | .aimLow => 31
  | .informational => 33

/-- Modelled from the spec: the `BAD_COLORS` table of `wily.operators`.
`BAD_COLORS[measure]` is the ANSI code used for a decrease of the metric:
red for AimHigh, green for AimLow, yellow for informational. -/
def BAD_COLORS : MetricType → Nat
  | .aimHigh => 31
  | .aimLow => 32
  | .informational => 33

/-- The literal placeholder value `"-"` used by `diff.py` for an absent
side (`except KeyError: current = "-"`). -/
def dash : MVal := .str "-"

/-- Python truthiness of a metric value: numbers are truthy iff nonzero,
strings iff nonempty. -/
def truthy : MVal → Bool
  | .num x => x ≠ 0
  | .str s => s ≠ ""

/-- Python truthiness of an optional value (`None` is falsy). -/
def truthyOpt : Option MVal → Bool
  | none => false
  | some v => truthy v

/-- Numeric content of a value.  Used only where `report.py` subtracts two
values in the numeric-metric branch; a string there would raise a Python
`TypeError`, which is unreachable under the index invariant that metric
value types are fixed per metric name. -/
def ratOf : MVal → Rat
  | .num x => x
  | .str _ => 0

/-- Python `ord` applied to a metric value, as in
`ord(last_val) - ord(val)` in `report.py`.  Python `ord` is only defined on
single-character strings (anything else raises `TypeError`); those error
cases are mapped to 0 here. -/
def pyOrd : MVal → Int
  | .num _ => 0
  | .str s =>
      match s.toList with
      | [c] => (c.toNat : Int)
      | _ => 0

/-- Python `current > new` as used in `diff.py`: numeric comparison on
numbers, lexicographic comparison on strings.  A mixed-type comparison
raises `TypeError` in Python and is unreachable under the fixed-type
invariant; it is mapped to `false`. -/
def pyGT : MVal → MVal → Bool
  | .num a, .num b => decide (b < a)
  | .str a, .str b => decide (b < a)
  | _, _ => false

/-- Modelled from the spec: `format_delta` (defined in `wily.__init__`,
not under the analysed sources) renders the raw value of a metric for
display; modelled as the identity rendering on strings and decimal
rendering on numbers. -/
def format_delta : MVal → String
  | .num q => toString q
  | .str s => s

/- ------------------------------------------------------------------
Delta cells of the diff command (`diff.py` lines 140-175).
Per file and per metric, `current` is the value at the target revision
(`"-"` when the lookup raised `KeyError`) and `new` the working-tree
value (`"-"` likewise).
------------------------------------------------------------------ -/

/-- Rendered comparison cell of `diff.py`: either the lone `"-"` (both
sides absent), an uncolored `"curr -> new"` pair, or a pair whose new side
carries an ANSI color. -/
inductive DiffCell where
  | single
  | plain (c n : MVal)
  | colored (c n : MVal) (color : Nat)
deriving DecidableEq

/-- Transcription of the per-metric cell construction of `diff.py`
(lines 156-175), after the `KeyError` handlers substituted `"-"` for an
absent side. -/
def diffCell (measure : MetricType) (current new : MVal) : DiffCell :=
  if new ≠ dash ∧ current ≠ dash then
    if current = new then .plain current new
    else .colored current new
      (if pyGT current new then BAD_COLORS measure else GOOD_COLORS measure)
  else if current = dash ∧ new = dash then .single
  else .plain current new

/-- Substitute the `"-"` placeholder for an absent lookup result, as the
`except KeyError` handlers of `diff.py` do. -/
def orDash : Option MVal → MVal
  | none => dash
  | some v => v

/-- The `has_changes` flag of the `diff.py` file loop: set when some
requested metric's working-tree value differs from the target-revision
value, comparing with `"-"` substituted for an absent side.  Each list
element is `(current lookup result, working-tree lookup result)`. -/
def hasChangesRow (pairs : List (Option MVal × Option MVal)) : Bool :=
  pairs.any (fun p => orDash p.2 ≠ orDash p.1)

/-- Row inclusion of `diff.py` line 177:
`if has_changes or not changes_only: results.append(...)`. -/
def rowIncluded (changes_only : Bool) (pairs : List (Option MVal × Option MVal)) : Bool :=
  hasChangesRow pairs || !changes_only

/-- All cells of one file row of the diff table, one per requested metric
(`(measure, current lookup, working-tree lookup)` per metric).  The
`KeyError` handlers make the loop total: no metric aborts the row. -/
def diffRowCells (pairs : List (MetricType × Option MVal × Option MVal)) : List DiffCell :=
  pairs.map (fun p => diffCell p.1 (orDash p.2.1) (orDash p.2.2))

/- ------------------------------------------------------------------
Delta cells of the report command (`report.py` lines 83-115).
------------------------------------------------------------------ -/

/-- The second argument of `_plant_delta` in `report.py`: either the plain
number 0 (the `delta == 0` branch) or the `_plant_delta_color` rendering of
`change` with an ANSI color. -/
inductive RepDelta where
  | plainZero
  | colored (color : Nat) (change : MVal)
deriving DecidableEq

/-- One cell of the report table: the `Not found {e}` text of the
`except KeyError` handler, or `_plant_delta(val, delta_col)`. -/
inductive RepCell where
  | notFound (key : String)
  | entry (val : MVal) (d : RepDelta)
deriving DecidableEq

/-- Transcription of the delta/change computation of `report.py`
lines 91-99.  `last_val = last.get(key, None)` is the previous revision's
value (`none` on the first hit).  The numeric branch is selected by the
metric's declared type; `if last_val` is Python truthiness, so a previous
value of 0 (or an empty string) takes the falsy branch. -/
def reportDeltaChange (t : MetricValType) (val : MVal) (last_val : Option MVal) :
    Rat × MVal :=
  match t, last_val with
  | .numericT, some lv =>
      if truthy lv then (ratOf val - ratOf lv, .num (ratOf val - ratOf lv))
      else (0, .num 0)
  | .numericT, none => (0, .num 0)
  | .textualT, some lv =>
      if truthy lv then
        if lv = val then (1, lv) else (((pyOrd lv - pyOrd val : Int) : Rat), lv)
      else (1, val)
  | .textualT, none => (1, val)

/-- Transcription of `report.py` lines 102-112: choose the delta column by
the sign of `delta`, coloring `change` with the bad table when negative and
the good table when positive. -/
def reportClassify (measure : MetricType) (val : MVal) (dc : Rat × MVal) : RepCell :=
  if dc.1 = 0 then .entry val .plainZero
  else if dc.1 < 0 then .entry val (.colored (BAD_COLORS measure) dc.2)
  else .entry val (.colored (GOOD_COLORS measure) dc.2)

/-- One report table cell for one metric at one revision
(`report.py` lines 84-115): a failed `rev.get` lookup (`valOpt = none`)
renders `Not found {key}`, otherwise the value is classified against the
previous value. -/
def reportCell (measure : MetricType) (t : MetricValType) (valOpt : Option MVal)
    (last_val : Option MVal) (key : String) : RepCell :=
  match valOpt with
  | none => .notFound key
  | some val => reportClassify measure val (reportDeltaChange t val last_val)

/-- Rendering of the delta column (`_plant_delta_color`, `report.py`
lines 158-163): ANSI color, a `+` sign for positive numbers, the
`format_delta` of `change`, then the reset code. -/
def repDeltaText : RepDelta → String
  | .plainZero => format_delta (.num 0)
  | .colored c change =>
      "\x1b[" ++ toString c ++ "m" ++
        (match change with
         | .num x => if 0 < x then "+" ++ format_delta change else format_delta change
         | .str _ => format_delta change) ++
        "\x1b[0m"

/-- Rendering of a report cell (`_plant_delta`, `report.py` lines 152-155,
and the `Not found {e}` f-string of line 114, with the key standing for the
`KeyError` text). -/
def repCellText : RepCell → String
  | .notFound k => "Not found " ++ k
  | .entry v d => format_delta v ++ " (" ++ repDeltaText d ++ ")"

/-- All cells of one revision row of the report table, one per requested
metric (`(measure, declared type, key)` per metric; `lookup` is the
`rev.get` result and `lastMap` the `last` dictionary).  The `KeyError`
handler makes the loop total: no metric aborts the row. -/
def reportRowCells (metas : List (MetricType × MetricValType × String))
    (lookup : String → Option MVal) (lastMap : String → Option MVal) : List RepCell :=
  metas.map (fun meta => reportCell meta.1 meta.2.1 (lookup meta.2.2) (lastMap meta.2.2) meta.2.2)

/- ------------------------------------------------------------------
Revision index reads (`report.py` line 79, `diff.py` lines 85-97).
------------------------------------------------------------------ -/

/-- Modelled from the spec: a revision entry of the index
(`wily.state`, not under the analysed sources).  The spec (§3) gives a
Revision a key and a timestamp; only those two attributes matter for the
history-read and lookup claims. -/
structure RevEntry where
  key : String
  date : Int
deriving DecidableEq

/-- Python slice `l[:n]` for an `int` bound `n`: the first `n` elements
when `n` is nonnegative, and all but the last `|n|` elements when `n` is
negative. -/
def pySliceTo {α : Type} (l : List α) (n : Int) : List α :=
  l.take (if 0 ≤ n then n.toNat else ((l.length : Int) + n).toNat)

/-- The history read of `report.py` line 79 before the display reversal:
`state.index[archiver].revisions[:n]`.  The `revisions` list itself comes
from `wily.state` (not under the analysed sources) and is, modelled from
the spec (§3, §4.1), ordered most-recent-first. -/
def historyRead (revisions : List RevEntry) (n : Int) : List RevEntry :=
  pySliceTo revisions n

/-- Most-recent-first ordering of an entry list: dates are non-increasing
along the list. -/
def mostRecentFirst (l : List RevEntry) : Prop :=
  l.Pairwise (fun a b => b.date ≤ a.date)

/-- Point lookup `state.index[archiver][rev.key]` of `diff.py` line 91,
modelled on an association list from revision keys to entries; `none`
corresponds to the Python `KeyError`. -/
def lookupIndex (idx : List (String × RevEntry)) (key : String) : Option RevEntry :=
  (idx.find? (fun p => p.1 = key)).map (fun p => p.2)

/-- Outcome of resolving the diff target revision: the found entry, or
process termination with an exit code. -/
inductive DiffTarget where
  | found (e : RevEntry)
  | exitCode (n : Nat)
deriving DecidableEq

/-- Transcription of `diff.py` lines 90-97: the explicit revision (already
resolved by the archiver to `revKey`) is looked up in the index; on
`KeyError` the failure is reported (`logger.error`) and the process exits
with status 1. -/
def diffResolveExplicit (idx : List (String × RevEntry)) (revKey : String) : DiffTarget :=
  match lookupIndex idx revKey with
  | some e => .found e
  | none => .exitCode 1

/- ------------------------------------------------------------------
Operator pool of the diff command (`diff.py` lines 106-117).
------------------------------------------------------------------ -/

/-- Python `metric.split(".")[0]`: the operator name in a qualified metric
name (`split` on a nonempty separator always yields at least one part, so
the index never fails). -/
def splitOperator (metric : String) : String :=
  (metric.splitOn ".").headD ""

/-- The set comprehension of `diff.py` line 106,
`{resolve_operator(metric.split(".")[0]) for metric in metrics}`:
the distinct operators named by the requested metrics.  `resolve_operator`
is a name-table lookup, so operators are identified by their names here;
the Python set is modelled as a deduplicated list. -/
def distinctOperators (metrics : List String) : List String :=
  (metrics.map splitOperator).dedup

/-- Pool sizing of `diff.py` line 111:
`multiprocessing.Pool(processes=len(operators))`. -/
def diffPoolSize (metrics : List String) : Nat :=
  (distinctOperators metrics).length

/-- The `pool.starmap(run_operator, ...)` call of `diff.py` lines 112-114
followed by the merge into the `data` dictionary (lines 115-117).
`starmap` returns only after every worker has completed, so from the
caller it is the list of every operator's result; `run_operator`
(`wily.commands.build`, not under the analysed sources) is abstracted as
the function `run`. -/
def runOperatorsDiff {ρ : Type} (run : String → ρ) (metrics : List String) :
    List (String × ρ) :=
  (distinctOperators metrics).map (fun op => (op, run op))

/- ------------------------------------------------------------------
JSON issue generation (`diff.py` lines 197-228).
------------------------------------------------------------------ -/

/-- Python `p in s` membership for a single character, via the character
list of the string. -/
def pyContains (s : String) (c : Char) : Bool := s.toList.contains c

/-- Python `s.startswith(p)`, via the character lists of the strings. -/
def pyStartsWith (s p : String) : Bool := p.toList.isPrefixOf s.toList

/-- One record of the `issues` array: the zipped header/value fields of
`dict(zip(...))` plus the `location` field set afterwards. -/
structure JIssue where
  fields : List (String × String)
  location : String
deriving DecidableEq

/-- Transcription of the issue construction of `generate_json_diff`
(`diff.py` lines 212-225): rows whose first component has no `":"` are
files; each file row yields one issue, and every row whose first component
starts with the file's name but differs from it yields an additional
issue keyed `Function`. -/
def jsonDiffIssues (headers : List String) (data : List (List String)) : List JIssue :=
  let files := data.filter (fun t => !pyContains (t.headD "") ':')
  files.flatMap (fun filet =>
    let file := (filet.headD "")
    let funcs := data.filter
      (fun t => pyStartsWith (t.headD "") file && (t.headD "") ≠ file)
    ⟨headers.zip filet, file⟩ ::
      funcs.map (fun tup => ⟨("Function" :: headers.tail).zip tup, file⟩))

/-- Transcription of `generate_json_report` (`report.py` lines 228-231):
exactly one issue, zipping the headers with the last data row and adding
the location. -/
def jsonReportIssues (path : String) (headers : List String) (data : List (List String)) :
    List JIssue :=
  [⟨headers.zip (data.getLastD []), path⟩]

/- ------------------------------------------------------------------
Output path checking (`commands/__init__.py` lines 6-15 and
`report.py` lines 206-214).
------------------------------------------------------------------ -/

/-- A filesystem path, modelled as its components. -/
structure PyPath where
  segments : List String
deriving DecidableEq

/-- Python `pathlib.Path.suffix`: the extension of the final component,
with its dot, and the empty string when there is none (a lone leading dot,
as in `.bashrc`, does not count as an extension). -/
def pathSuffix (p : PyPath) : String :=
  let name := p.segments.getLastD ""
  match name.splitOn "." with
  | [] => ""
  | [_] => ""
  | first :: rest =>
      if first = "" ∧ rest.length = 1 then ""
      else "." ++ (first :: rest).getLastD ""

/-- Python `output.is_file` as written in both sources: the attribute
access without a call yields the bound method object, which is always
truthy. -/
def pathIsFileAttr (_ : PyPath) : Bool := true

/-- Transcription of `check_output` of `wily/commands/__init__.py`
(lines 6-15): returns the `(report_path, report_output)` pair; the
`report_path.mkdir(exist_ok=True, parents=True)` side effect applies to
the first component. -/
def check_output (output : PyPath) (file_ending : String) : PyPath × PyPath :=
  if pathIsFileAttr output && (pathSuffix output == file_ending) then
    (⟨output.segments.dropLast⟩, output)
  else
    (output, ⟨output.segments ++ ["index" ++ file_ending]⟩)

/-- Transcription of the private `_check_output` of `report.py`
(lines 206-214), kept separate from `check_output` so the two can be
compared. -/
def _check_output (output : PyPath) (file_ending : String) : PyPath × PyPath :=
  if pathIsFileAttr output && (pathSuffix output == file_ending) then
    (⟨output.segments.dropLast⟩, output)
  else
    (output, ⟨output.segments ++ ["index" ++ file_ending]⟩)

/- ------------------------------------------------------------------
Specification-side delta classification (for the refinement claims).
------------------------------------------------------------------ -/

/-- Direction of a comparison in the words of the spec (§4.4). -/
inductive Direction where
  | improvement
  | regression
  | unchanged
deriving DecidableEq

/-- Follows the spec's words (§4.4), not the source: `Unchanged` when the
delta is 0, `Improvement` exactly when the delta moves the value in the
direction favored by the metric's aim (AimHigh: increase, AimLow:
decrease), `Regression` otherwise. -/
def specDirection (m : MetricType) (baseline current : Rat) : Direction :=
  if current = baseline then .unchanged
  else if (m = .aimHigh ∧ baseline < current) ∨ (m = .aimLow ∧ current < baseline) then
    .improvement
  else .regression

/- ------------------------------------------------------------------
Theorems.
------------------------------------------------------------------ -/

/-- C2: on a numeric metric with current = 5 and baseline = 0 both present,
`report.py` line 92 (`delta = val - last_val if last_val else 0`) treats
the falsy baseline 0 like an absent value: the computed delta is 0 and the
cell renders as unchanged, where the claim requires `delta = current -
baseline = 5`. -/
theorem C2_zero_baseline_eval :
    reportCell .aimLow .numericT (some (.num 5)) (some (.num 0)) "k" =
      .entry (.num 5) .plainZero := by
  rfl

/-- C10: with `changes_only` true, a file's row is appended to the diff
results exactly when some requested metric's working-tree value differs
from its target-revision value (an absent side comparing as `"-"`); with
`changes_only` false every row is appended. -/
theorem C10_changes_only_filter (pairs : List (Option MVal × Option MVal)) :
    (rowIncluded true pairs = true ↔ ∃ p ∈ pairs, orDash p.2 ≠ orDash p.1) ∧
      rowIncluded false pairs = true := by
  constructor
  · simp [rowIncluded, hasChangesRow, List.any_eq_true]
  · simp [rowIncluded]

/-- C6: when the explicit revision asked of the diff command is not in the
revision index, the failure is reported and the command terminates with
exit status 1, which is non-zero (`diff.py` lines 90-97). -/
theorem C6_unknown_revision_exits (idx : List (String × RevEntry)) (revKey : String)
    (h : lookupIndex idx revKey = none) :
    diffResolveExplicit idx revKey = .exitCode 1 ∧ (1 : Nat) ≠ 0 := by
  refine ⟨?_, by decide⟩
  simp [diffResolveExplicit, h]

/-- Witness for C6 at a concrete input: the empty index knows no revision,
and the diff target resolution exits with status 1. -/
theorem C6_witness :
    diffResolveExplicit [] "abc123" = .exitCode 1 ∧ (1 : Nat) ≠ 0 :=
  C6_unknown_revision_exits [] "abc123" rfl

/-- C7: the diff operator pool is sized to exactly the number of distinct
operators named by the requested metrics (deduplicated), and the merge
step receives the completed result of every requested metric's operator,
`pool.starmap` having returned only after all workers finished. -/
theorem C7_pool_per_distinct_operator {ρ : Type} (run : String → ρ) (metrics : List String) :
    diffPoolSize metrics = (metrics.map splitOperator).toFinset.card ∧
      (distinctOperators metrics).Nodup ∧
      ∀ m ∈ metrics,
        (splitOperator m, run (splitOperator m)) ∈ runOperatorsDiff run metrics := by
  refine ⟨?_, List.nodup_dedup _, ?_⟩
  · simp [diffPoolSize, distinctOperators, List.card_toFinset]
  · intro m hm
    exact List.mem_map.mpr
      ⟨splitOperator m, List.mem_dedup.mpr (List.mem_map_of_mem _ hm), rfl⟩

/-- C9: the module-level `check_output` of `wily.commands` and the private
`_check_output` of the report module compute the same
`(report_path, report_output)` pair on every output path and file
ending — the two implementations are equivalent. -/
theorem C9_check_output_equivalent (output : PyPath) (file_ending : String) :
    check_output output file_ending = _check_output output file_ending := rfl

/-- C5 counterexample: at the limit `n = -1`, Python slicing makes
`revisions[:n]` drop only the last entry, so a two-entry index yields one
entry, and one is not at most `-1` — the claim fails for negative `n`. -/
theorem C5_counterexample :
    (historyRead [⟨"r2", 2⟩, ⟨"r1", 1⟩] (-1)).length = 1 ∧
      ¬ (((historyRead [⟨"r2", 2⟩, ⟨"r1", 1⟩] (-1)).length : Int) ≤ -1) := by
  constructor
  · rfl
  · decide

/-- C5 amended: for every nonnegative limit `n`, the history read
`revisions[:n]` returns at most `n` entries, keeps the most-recent-first
order of the index, and returns an initial (most recent) segment of it. -/
theorem C5_history_bounded (revs : List RevEntry) (n : Int)
    (hs : mostRecentFirst revs) (hn : 0 ≤ n) :
    (historyRead revs n).length ≤ n.toNat ∧
      mostRecentFirst (historyRead revs n) ∧
      ∃ rest, revs = historyRead revs n ++ rest := by
  unfold historyRead pySliceTo
  rw [if_pos hn]
  exact ⟨List.length_take_le _ _,
    List.Pairwise.sublist (List.take_sublist _ _) hs,
    revs.drop n.toNat, (List.take_append_drop _ _).symm⟩

/-- Witness for C5 at a concrete input: a one-entry index with limit 1. -/
theorem C5_witness :
    (historyRead [⟨"r2", 2⟩] 1).length ≤ (1 : Int).toNat ∧
      mostRecentFirst (historyRead [⟨"r2", 2⟩] 1) ∧
      ∃ rest, [(⟨"r2", 2⟩ : RevEntry)] = historyRead [⟨"r2", 2⟩] 1 ++ rest :=
  C5_history_bounded [⟨"r2", 2⟩] 1 (by simp [mostRecentFirst]) (by decide)

/-- C8: when one targeted file's name is a string prefix of another's
(here `a.py` and `a.pyx.py`), `generate_json_diff` emits the longer file's
row twice — once as its own issue and once more as a spurious `Function`
issue located at the shorter file — so two files with no function detail
produce three issues instead of the claimed two. -/
theorem C8_prefix_collision_eval :
    (jsonDiffIssues ["File", "M"] [["a.py", "1 -> 2"], ["a.pyx.py", "3 -> 4"]]).length = 3 ∧
      (jsonDiffIssues ["File", "M"] [["a.py", "1 -> 2"], ["a.pyx.py", "3 -> 4"]]).map
          (fun i => i.location) = ["a.py", "a.py", "a.pyx.py"] ∧
      (jsonDiffIssues ["File", "M"] [["a.py", "1 -> 2"], ["a.pyx.py", "3 -> 4"]]).map
          (fun i => i.fields) =
        [[("File", "a.py"), ("M", "1 -> 2")],
         [("Function", "a.pyx.py"), ("M", "3 -> 4")],
         [("File", "a.pyx.py"), ("M", "3 -> 4")]] := by
  refine ⟨by decide, by decide, by decide⟩

/-- Helper: `Char.toNat` is injective (two characters with the same code
point are equal). -/
theorem char_toNat_inj (a b : Char) (h : a.toNat = b.toNat) : a = b := by
  have hv : a.val = b.val := by
    have h2 : a.val.toNat = b.val.toNat := h
    exact UInt32.eq_of_toBitVec_eq (by
      apply BitVec.eq_of_toNat_eq
      exact h2)
  exact Char.eq_of_val_eq hv

/-- Helper: the diff cell on two present numeric values is the uncolored
pair when they are equal, and otherwise colors the new side with the bad
table on a decrease and the good table on an increase. -/
theorem diffCell_num_eq (m : MetricType) (x y : Rat) :
    diffCell m (.num x) (.num y) =
      if x = y then .plain (.num x) (.num y)
      else .colored (.num x) (.num y) (if y < x then BAD_COLORS m else GOOD_COLORS m) := by
  by_cases hxy : x = y
  · simp [diffCell, dash, hxy]
  · simp [diffCell, dash, hxy, pyGT]

/-- Helper: the report cell on a numeric metric with a nonzero previous
value computes the delta `cur - base` and colors it by its sign. -/
theorem reportCell_num_eq (m : MetricType) (cur base : Rat) (hbase : base ≠ 0)
    (key : String) :
    reportCell m .numericT (some (.num cur)) (some (.num base)) key =
      if cur = base then .entry (.num cur) .plainZero
      else if cur < base then
        .entry (.num cur) (.colored (BAD_COLORS m) (.num (cur - base)))
      else .entry (.num cur) (.colored (GOOD_COLORS m) (.num (cur - base))) := by
  unfold reportCell reportDeltaChange reportClassify
  simp [truthy, ratOf, hbase, sub_eq_zero, sub_neg]

/-- Helper: the specification direction is `unchanged` exactly when the
current value equals the baseline. -/
theorem spec_unchanged_iff (m : MetricType) (baseline current : Rat) :
    specDirection m baseline current = .unchanged ↔ current = baseline := by
  constructor
  · intro hs
    by_contra hne
    unfold specDirection at hs
    rw [if_neg hne] at hs
    by_cases hp : ((m = .aimHigh ∧ baseline < current) ∨ (m = .aimLow ∧ current < baseline))
    · rw [if_pos hp] at hs
      exact Direction.noConfusion hs
    · rw [if_neg hp] at hs
      exact Direction.noConfusion hs
  · intro h
    simp [specDirection, h]

/-- Helper: on an AimHigh or AimLow metric with distinct values, the color
table entry selected by the sign of the change is the good style (32)
exactly on a spec improvement and the bad style (31) otherwise. -/
theorem spec_color_eq (m : MetricType) (hm : m = .aimHigh ∨ m = .aimLow)
    (baseline current : Rat) (hne : current ≠ baseline) :
    (if current < baseline then BAD_COLORS m else GOOD_COLORS m) =
      if specDirection m baseline current = .improvement then 32 else 31 := by
  rcases hm with hm | hm <;> subst hm <;>
    rcases lt_trichotomy current baseline with h | h | h <;>
      first
        | exact absurd h hne
        | simp [specDirection, hne, h, lt_asymm h, BAD_COLORS, GOOD_COLORS]

/-- C3 amended: for AimHigh/AimLow numeric metrics with both sides
present, diff classifies by the spec rule unconditionally, and report does
so whenever the baseline is nonzero (a baseline of 0 is treated as absent
by `report.py` line 92, yielding `Unchanged`): `Unchanged` on a zero
delta, good style (32) exactly on a spec improvement, bad style (31) on a
regression. -/
theorem C3_aim_directed_classification (m : MetricType)
    (hm : m = .aimHigh ∨ m = .aimLow) (x y base cur : Rat) (hbase : base ≠ 0)
    (key : String) :
    (diffCell m (.num x) (.num y) =
      if specDirection m x y = .unchanged then DiffCell.plain (.num x) (.num y)
      else DiffCell.colored (.num x) (.num y)
        (if specDirection m x y = .improvement then 32 else 31)) ∧
    (reportCell m .numericT (some (.num cur)) (some (.num base)) key =
      if specDirection m base cur = .unchanged then RepCell.entry (.num cur) .plainZero
      else RepCell.entry (.num cur)
        (.colored (if specDirection m base cur = .improvement then 32 else 31)
          (.num (cur - base)))) := by
  constructor
  · rw [diffCell_num_eq]
    by_cases hxy : x = y
    · rw [if_pos hxy, if_pos ((spec_unchanged_iff m x y).mpr hxy.symm)]
    · rw [if_neg hxy, if_neg (fun hc => hxy ((spec_unchanged_iff m x y).mp hc).symm),
          spec_color_eq m hm x y (fun he => hxy he.symm)]
  · rw [reportCell_num_eq m cur base hbase key]
    by_cases hcb : cur = base
    · rw [if_pos hcb, if_pos ((spec_unchanged_iff m base cur).mpr hcb)]
    · rw [if_neg hcb, if_neg (fun hc => hcb ((spec_unchanged_iff m base cur).mp hc)),
        ← spec_color_eq m hm base cur hcb]
      by_cases hlt : cur < base <;> simp [hlt]

/-- Witness for C3 at the spec's own example: AimHigh, baseline 7 and
current 10 classify as an improvement (good style 32) in both the diff and
the report path. -/
theorem C3_witness :
    ((MetricType.aimHigh = MetricType.aimHigh ∨ MetricType.aimHigh = MetricType.aimLow) ∧
      (7 : Rat) ≠ 0) ∧
    diffCell .aimHigh (.num 7) (.num 10) = DiffCell.colored (.num 7) (.num 10) 32 ∧
    reportCell .aimHigh .numericT (some (.num 10)) (some (.num 7)) "k" =
      RepCell.entry (.num 10) (.colored 32 (.num 3)) := by
  refine ⟨⟨Or.inl rfl, by norm_num⟩, ?_⟩
  have h := C3_aim_directed_classification .aimHigh (Or.inl rfl) 7 10 7 10 (by norm_num) "k"
  have hd : specDirection .aimHigh 7 10 = .improvement := by
    norm_num [specDirection]
  rw [hd] at h
  norm_num at h
  exact h

/-- C3 counterexample: with both sides present, an AimHigh metric moving
from baseline 0 to current 5 is an improvement by the claim's rule, yet
the report path classifies it `Unchanged` (the truthy test of `report.py`
line 92 discards the zero baseline). -/
theorem C3_counterexample :
    reportCell .aimHigh .numericT (some (.num 5)) (some (.num 0)) "k" =
      .entry (.num 5) .plainZero ∧
    specDirection .aimHigh 0 5 = .improvement ∧
    RepCell.entry (MVal.num 5) RepDelta.plainZero ≠
      RepCell.entry (.num 5) (.colored 32 (.num 5)) := by
  refine ⟨rfl, by norm_num [specDirection], by decide⟩

/-- C4 counterexample: in the report path an absent current value does not
render as a `"-"` placeholder pair — the whole cell becomes the text
`Not found <key>` (`report.py` lines 113-114). -/
theorem C4_counterexample :
    reportCell .aimHigh .numericT none (some (.num 3)) "mkey" = .notFound "mkey" ∧
      repCellText (reportCell .aimHigh .numericT none (some (.num 3)) "mkey") =
        "Not found mkey" ∧
      "Not found mkey" ≠ "-" := by
  refine ⟨rfl, rfl, by decide⟩

/-- C4 amended: in the diff path an absent side renders as the `"-"`
placeholder with the raw value on the present side and no color (Neutral),
and both sides absent render as a lone `"-"`; in the report path a failed
current lookup instead renders the whole cell as `Not found <key>`.  In
both paths the lookup failure is caught per metric, so every metric still
yields a cell and the command continues. -/
theorem C4_absent_side (m : MetricType) (v : MVal) (hv : v ≠ dash)
    (t : MetricValType) (lastv : Option MVal) (k : String)
    (pairs : List (MetricType × Option MVal × Option MVal))
    (metas : List (MetricType × MetricValType × String))
    (lookup lastMap : String → Option MVal) :
    diffCell m dash v = .plain dash v ∧
      diffCell m v dash = .plain v dash ∧
      diffCell m dash dash = .single ∧
      reportCell m t none lastv k = .notFound k ∧
      (diffRowCells pairs).length = pairs.length ∧
      (reportRowCells metas lookup lastMap).length = metas.length := by
  refine ⟨?_, ?_, by simp [diffCell], rfl, by simp [diffRowCells], by simp [reportRowCells]⟩
  · simp [diffCell, hv]
  · simp [diffCell, hv]

/-- Witness for C4 at a concrete input: a present numeric value 3 paired
with an absent side in either direction. -/
theorem C4_witness :
    (MVal.num 3 ≠ dash) ∧
    (diffCell .aimLow dash (.num 3) = .plain dash (.num 3) ∧
      diffCell .aimLow (.num 3) dash = .plain (.num 3) dash ∧
      diffCell .aimLow dash dash = .single ∧
      reportCell .aimLow .numericT none none "k" = .notFound "k" ∧
      (diffRowCells []).length = ([] : List (MetricType × Option MVal × Option MVal)).length ∧
      (reportRowCells [] (fun _ => none) (fun _ => none)).length =
        ([] : List (MetricType × MetricValType × String)).length) :=
  ⟨by decide,
    C4_absent_side .aimLow (.num 3) (by decide) .numericT none "k" [] []
      (fun _ => none) (fun _ => none)⟩

/-- C1 counterexample: two equal textual values are not classified by
equality as `Unchanged` — `report.py` line 95 assigns them delta 1, so the
cell is styled with the good color showing the previous value, a changed
rendering distinct from the unchanged one. -/
theorem C1_counterexample :
    reportCell .aimHigh .textualT (some (.str "A")) (some (.str "A")) "k" =
      .entry (.str "A") (.colored 32 (.str "A")) ∧
    RepCell.entry (MVal.str "A") (RepDelta.colored 32 (.str "A")) ≠
      RepCell.entry (.str "A") RepDelta.plainZero := by
  refine ⟨?_, by decide⟩
  rfl

/-- C1 amended: for textual metrics (single-character values, the only
ones Python `ord` accepts) with a previous value present, the report path
computes the ordinal character-code difference `ord(last) - ord(val)` when
the values differ and styles by its sign (bad color when negative, good
color when positive); equal values get delta 1 and the good color.  The
ordinal difference itself is never displayed as a numeric magnitude: the
rendered delta column shows the previous value's text. -/
theorem C1_textual_ordinal_styling (m : MetricType) (a b : Char) (k : String) :
    reportCell m .textualT (some (.str ⟨[b]⟩)) (some (.str ⟨[a]⟩)) k =
      .entry (.str ⟨[b]⟩)
        (if a = b then RepDelta.colored (GOOD_COLORS m) (.str ⟨[a]⟩)
         else if a.toNat < b.toNat then RepDelta.colored (BAD_COLORS m) (.str ⟨[a]⟩)
         else RepDelta.colored (GOOD_COLORS m) (.str ⟨[a]⟩)) ∧
    repDeltaText (RepDelta.colored (GOOD_COLORS m) (.str ⟨[a]⟩)) =
      "\x1b[" ++ toString (GOOD_COLORS m) ++ "m" ++ String.mk [a] ++ "\x1b[0m" ∧
    repDeltaText (RepDelta.colored (BAD_COLORS m) (.str ⟨[a]⟩)) =
      "\x1b[" ++ toString (BAD_COLORS m) ++ "m" ++ String.mk [a] ++ "\x1b[0m" := by
  have ht : truthy (.str ⟨[a]⟩) = true := by
    simp only [truthy]
    apply decide_eq_true
    intro h
    exact List.cons_ne_nil a [] (congrArg String.data h)
  refine ⟨?_, rfl, rfl⟩
  by_cases hab : a = b
  · subst hab
    rw [if_pos rfl]
    norm_num [reportCell, reportDeltaChange, reportClassify, ht]
  · have hsne : MVal.str ⟨[a]⟩ ≠ MVal.str ⟨[b]⟩ := by
      intro h
      injection h with h2
      injection h2 with h3
      injection h3 with h4 h5
      exact hab h4
    have hnn : a.toNat ≠ b.toNat := fun h => hab (char_toNat_inj a b h)
    rw [if_neg hab]
    by_cases hlt : a.toNat < b.toNat
    · rw [if_pos hlt]
      simp [reportCell, reportDeltaChange, reportClassify, ht, hsne, pyOrd,
        String.toList, sub_eq_zero, sub_neg, hnn, hlt]
    · rw [if_neg hlt]
      simp [reportCell, reportDeltaChange, reportClassify, ht, hsne, pyOrd,
        String.toList, sub_eq_zero, sub_neg, hnn, hlt]
